import Mathlib

/-!
Verification of the PostgresQueryPlanReader repository (src/app.py).

The program is a Flask app with three functions:
* `parse_query_plan` (app.py lines 6-25): an indentation-based tree builder,
  never called by the analysis path;
* `analyze_query_plan` (app.py lines 27-155): flat substring / regex checks
  over the whole plan text, each appending fixed advice strings;
* `analyze_query` (app.py lines 157-190): keyword checks over the query text;
plus the route `index` (lines 192-243) which on POST reads form fields
`query_plan` and `query` by bracket access and concatenates the two analyses.

Text is modelled as `List Char` (ASCII inputs; Python's `\w`/`\d` are
Unicode-aware but every literal scanned for here is ASCII).  Python's
arbitrary-precision `int` on digit strings is `Nat`.
-/

/-- Boolean list-prefix test on characters (Python slice equality), the
primitive under substring search. -/
def isPref : List Char → List Char → Bool
  | [], _ => true
  | _ :: _, [] => false
  | a :: as, b :: bs => a == b && isPref as bs

/-- Python's substring containment `needle in hay`. -/
def containsSub (needle : List Char) : List Char → Bool
  | [] => needle.isEmpty
  | h :: t => isPref needle (h :: t) || containsSub needle t

/-- Python's `hay.count(needle)`: number of non-overlapping occurrences,
scanning left to right and resuming after each match (used at app.py
line 101 with needle `"Nested Loop"`). -/
def pyCount (needle : List Char) : List Char → Nat
  | [] => if needle.isEmpty then 1 else 0
  | h :: t =>
    if needle.isEmpty then (h :: t).length + 1
    else if isPref needle (h :: t) then
      1 + pyCount needle (t.drop (needle.length - 1))
    else pyCount needle t
termination_by hay => hay.length
decreasing_by
  all_goals simp [List.length_drop]
  omega

/-- Value of a decimal digit string (Python `int` of a `\d+` capture). -/
def natOfDigits (ds : List Char) : Nat :=
  ds.foldl (fun n c => 10 * n + (c.toNat - 48)) 0

/-- `re.findall` for a pattern `lit(\d+)`: literal `lit` followed by a
greedy nonempty digit run, non-overlapping left-to-right scan, returning
the numeric values of the captures.  `lit` is always nonempty here
(`"buckets="` at app.py line 87, `"Rows Removed by Filter: "` at line 144). -/
def findLitNum (lit : List Char) : List Char → List Nat
  | [] => []
  | h :: t =>
    if isPref lit (h :: t) then
      let rest := t.drop (lit.length - 1)
      let digits := rest.takeWhile Char.isDigit
      if digits.isEmpty then findLitNum lit t
      else natOfDigits digits :: findLitNum lit (rest.drop digits.length)
    else findLitNum lit t
termination_by hay => hay.length
decreasing_by
  all_goals simp [List.length_drop]
  omega

/-- `re.findall` for a pattern `lit(\w+)`: literal `lit` followed by a greedy
nonempty word-character run (`[A-Za-z0-9_]`), non-overlapping scan, returning
the captures (`"Seq Scan on (\w+)"` at app.py line 57). -/
def findLitWord (lit : List Char) : List Char → List (List Char)
  | [] => []
  | h :: t =>
    if isPref lit (h :: t) then
      let rest := t.drop (lit.length - 1)
      let word := rest.takeWhile (fun c => c.isAlpha || c.isDigit || c == '_')
      if word.isEmpty then findLitWord lit t
      else word :: findLitWord lit (rest.drop word.length)
    else findLitWord lit t
termination_by hay => hay.length
decreasing_by
  all_goals simp [List.length_drop]
  omega

/-- Python's `max` over a list of numeric captures.  The source only applies
it to nonempty match lists (guarded by `if matches:`), where it agrees with
this fold. -/
def pyMax (l : List Nat) : Nat := l.foldl max 0

/-- Number of occurrences of `needle` in `hay`: positions at which `needle`
is a prefix of the corresponding suffix.  This is the plain-language notion
of "occurrences"; for needles that cannot overlap themselves it coincides
with Python's non-overlapping `count` (proved below for `"Nested Loop"`). -/
def occCount (needle hay : List Char) : Nat :=
  (List.range hay.length).countP (fun i => isPref needle (hay.drop i))

/-- `needle` has no nonempty proper border: no proper suffix of it is also a
prefix of it.  Such a needle cannot overlap itself, so non-overlapping
counting sees every occurrence. -/
def borderFree (needle : List Char) : Bool :=
  (List.range needle.length).all
    (fun j => j == 0 || !(isPref (needle.drop j) needle))

/-! ## `analyze_query_plan` (app.py lines 27-155)

The `operators` dict (lines 29-48) only records, for each fixed operator
name, whether it occurs in the plan text: `operators[op]` is truthy iff
`op in plan`, so each block's guard is embedded as a direct substring test.
The `operator_costs` dict (lines 44-53) is computed and never read — it has
no effect on the returned list and is not part of the output function.
Each block below embeds one `if` of the source, in source order. -/

/-- Tables captured by `re.findall(r"Seq Scan on (\w+)", plan)` (line 57). -/
def seqScanTables (plan : List Char) : List (List Char) :=
  findLitWord "Seq Scan on ".data plan

/-- Bucket counts captured by `re.findall(r"buckets=(\d+)", plan)` (line 88). -/
def bucketCounts (plan : List Char) : List Nat :=
  findLitNum "buckets=".data plan

/-- Counts captured by `re.findall(r"Rows Removed by Filter: (\d+)", plan)`
(line 145). -/
def rowsRemovedCounts (plan : List Char) : List Nat :=
  findLitNum "Rows Removed by Filter: ".data plan

/-- Sequential-scan advice (lines 56-63): five strings per captured table. -/
def seqScanBlock (plan : List Char) : List String :=
  if containsSub "Seq Scan".data plan then
    (seqScanTables plan).flatMap (fun table =>
      let t := String.mk table
      ["Consider adding an index to table \x27" ++ t ++ "\x27 to avoid sequential scans.",
       "- Sequential scans read every row in the table, which can be inefficient for large datasets.",
       "- They are useful when the entire table needs to be processed or when the table is small.",
       "- However, for larger tables, consider using indexes to speed up data retrieval.",
       "- Suggested Index: `CREATE INDEX idx_" ++ t ++ "_on_column ON " ++ t ++ " (column_name);`"])
  else []

/-- Index-scan advice (lines 66-69). -/
def indexScanBlock (plan : List Char) : List String :=
  if containsSub "Index Scan".data plan then
    ["Index Scan detected. This is generally efficient, but consider:",
     "- Ensuring the index is selective enough to avoid scanning too many rows.",
     "- Analyzing the index usage to confirm it is being utilized effectively."]
  else []

/-- Index-only-scan advice (lines 72-75). -/
def indexOnlyScanBlock (plan : List Char) : List String :=
  if containsSub "Index Only Scan".data plan then
    ["Index Only Scan detected. This is optimal as it avoids accessing the heap.",
     "- Ensure that the index covers all columns needed for the query to maximize efficiency.",
     "- Regularly update statistics to maintain index effectiveness."]
  else []

/-- Bitmap-heap-scan advice (lines 78-83). -/
def bitmapHeapScanBlock (plan : List Char) : List String :=
  if containsSub "Bitmap Heap Scan".data plan then
    ["Bitmap Heap Scan detected. While better than sequential scan, consider:",
     "- Creating a covering index to enable Index Only Scan",
     "- Reviewing the query to see if it can be optimized to use an Index Scan",
     "- Investigate the use of bitmap indexes if applicable.",
     "- Suggested Index: `CREATE INDEX idx_bitmap ON table_name (column_name);`"]
  else []

/-- Hash-join advice (lines 86-97): guarded by `"Hash Join" in plan`, then by
a nonempty bucket match list (`if matches:`), then by `max_buckets > 100000`. -/
def hashJoinBlock (plan : List Char) : List String :=
  if containsSub "Hash Join".data plan then
    let ms := bucketCounts plan
    if ms.isEmpty then []
    else
      let maxBuckets := pyMax ms
      if maxBuckets > 100000 then
        ["Large hash join detected (" ++ toString maxBuckets ++ " buckets). Consider:",
         "- Increasing work_mem (current buckets: " ++ toString maxBuckets ++ ")",
         "- Reviewing join conditions to reduce the size of the hash table",
         "- Using an index-based join if possible",
         "- Analyze the distribution of data in the involved tables.",
         "- If the hash table exceeds the `work_mem` limit, it may spill to disk, processing data in batches, which can slow down execution. Consider increasing `work_mem` to allow hashing in a single batch for better performance. [Learn more](https://pganalyze.com/docs/explain/insights/hash-batches)"]
      else []
  else []

/-- Nested-loop advice (lines 100-107): guarded by `"Nested Loop" in plan`,
then by `plan.count("Nested Loop") > 2`. -/
def nestedLoopBlock (plan : List Char) : List String :=
  if containsSub "Nested Loop".data plan then
    let nestedLoops := pyCount "Nested Loop".data plan
    if nestedLoops > 2 then
      [toString nestedLoops ++ " nested loops detected. Consider the following:",
       "- Use JOIN clauses instead of subqueries where possible",
       "- Ensure proper indexing on join columns",
       "- Review query structure to minimize nested operations",
       "- Investigate the possibility of rewriting the query to reduce complexity."]
    else []
  else []

/-- Merge-join advice (lines 110-113). -/
def mergeJoinBlock (plan : List Char) : List String :=
  if containsSub "Merge Join".data plan then
    ["Merge Join detected. This is efficient for sorted data, but consider:",
     "- Ensuring that the input data is sorted to avoid additional sorting overhead.",
     "- Reviewing the join conditions to confirm they are optimal for merge joins."]
  else []

/-- Sort advice (lines 116-119). -/
def sortBlock (plan : List Char) : List String :=
  if containsSub "Sort".data plan then
    ["Sort operation detected. Consider:",
     "- Adding an index that matches the sort order to avoid in-memory sorting.",
     "- Analyzing the data distribution to determine if sorting can be optimized."]
  else []

/-- Aggregate advice (lines 122-125). -/
def aggregateBlock (plan : List Char) : List String :=
  if containsSub "Aggregate".data plan then
    ["Aggregate operation detected. Consider:",
     "- Ensuring that the aggregation is performed on indexed columns to improve performance.",
     "- Reviewing the query to see if it can be simplified to reduce the number of rows processed."]
  else []

/-- Materialize advice (lines 128-132). -/
def materializeBlock (plan : List Char) : List String :=
  if containsSub "Materialize".data plan then
    ["Materialization detected. Consider:",
     "- Reviewing subqueries to see if they can be simplified or eliminated",
     "- Increasing work_mem to allow larger operations in memory",
     "- Evaluate if the materialized results can be cached for repeated queries."]
  else []

/-- No-parallelism advice (lines 135-141): emitted when `"Parallel"` is NOT a
substring of the plan. -/
def parallelBlock (plan : List Char) : List String :=
  if !containsSub "Parallel".data plan then
    ["No parallel operations detected. Consider:",
     "- Increasing max_parallel_workers_per_gather",
     "- Ensuring tables are large enough to benefit from parallelism",
     "- Reviewing queries to allow for parallelization",
     "- Consider using parallel query execution for large datasets.",
     "- Parallel operations can significantly improve performance for large queries by utilizing multiple CPU cores."]
  else []

/-- Rows-removed-by-filter advice (lines 144-153): unguarded by any operator
check; emitted when the match list is nonempty and its maximum exceeds 10000. -/
def rowsRemovedBlock (plan : List Char) : List String :=
  let ms := rowsRemovedCounts plan
  if ms.isEmpty then []
  else
    let maxRemoved := pyMax ms
    if maxRemoved > 10000 then
      ["High number of rows removed by filter (" ++ toString maxRemoved ++ "). Consider:",
       "- Adding indexes to support the filter conditions",
       "- Reviewing data distribution and updating statistics",
       "- Rewriting the query to filter data earlier in the plan",
       "- Analyze the filter conditions to ensure they are selective enough."]
    else []

/-- `analyze_query_plan` (app.py lines 27-155): the recommendation list is
the concatenation of the twelve blocks in source order. -/
def analyze_query_plan (plan : List Char) : List String :=
  seqScanBlock plan ++ indexScanBlock plan ++ indexOnlyScanBlock plan
    ++ bitmapHeapScanBlock plan ++ hashJoinBlock plan ++ nestedLoopBlock plan
    ++ mergeJoinBlock plan ++ sortBlock plan ++ aggregateBlock plan
    ++ materializeBlock plan ++ parallelBlock plan ++ rowsRemovedBlock plan

/-! ## `analyze_query` (app.py lines 157-190) -/

/-- SELECT-* advice (lines 162-163). -/
def selectStarBlock (query : List Char) : List String :=
  if containsSub "SELECT *".data query then
    ["- Avoid using `SELECT *`. Specify only the columns you need to reduce data transfer and improve performance."]
  else []

/-- JOIN advice (lines 165-168), with the nested `"ON" not in query` check. -/
def joinBlock (query : List Char) : List String :=
  if containsSub "JOIN".data query then
    ["- Ensure that JOIN conditions are properly indexed to improve join performance."]
      ++ (if !containsSub "ON".data query then
            ["- Make sure to include `ON` conditions for JOINs to avoid Cartesian products."]
          else [])
  else []

/-- WHERE advice (lines 170-172). -/
def whereBlock (query : List Char) : List String :=
  if containsSub "WHERE".data query then
    ["- Review the WHERE clause to ensure it filters data efficiently.",
     "- Consider adding indexes on columns used in the WHERE clause to speed up filtering."]
  else []

/-- GROUP BY advice (lines 174-175). -/
def groupByBlock (query : List Char) : List String :=
  if containsSub "GROUP BY".data query then
    ["- Ensure that the columns in the GROUP BY clause are indexed if possible to improve aggregation performance."]
  else []

/-- ORDER BY advice (lines 177-178). -/
def orderByBlock (query : List Char) : List String :=
  if containsSub "ORDER BY".data query then
    ["- If using ORDER BY, consider adding an index that matches the sort order to avoid in-memory sorting."]
  else []

/-- LIMIT advice (lines 180-181). -/
def limitBlock (query : List Char) : List String :=
  if containsSub "LIMIT".data query then
    ["- Using `LIMIT` can improve performance by reducing the number of rows processed. Ensure it is used appropriately."]
  else []

/-- DISTINCT advice (lines 183-184). -/
def distinctBlock (query : List Char) : List String :=
  if containsSub "DISTINCT".data query then
    ["- Using `DISTINCT` can be costly. Ensure it is necessary and consider if it can be avoided."]
  else []

/-- The three unconditional closing tips (lines 186-188). -/
def genericTips : List String :=
  ["- Regularly update statistics on your tables to help the query planner make informed decisions.",
   "- Use `EXPLAIN` to analyze the execution plan of your query and identify potential bottlenecks.",
   "- Consider breaking complex queries into smaller, simpler queries if performance issues arise."]

/-- `analyze_query` (app.py lines 157-190): a fixed header, one block per
SQL keyword in source order, and three unconditional closing tips. -/
def analyze_query (query : List Char) : List String :=
  ["### Query Analysis Recommendations"]
    ++ selectStarBlock query ++ joinBlock query ++ whereBlock query
    ++ groupByBlock query ++ orderByBlock query ++ limitBlock query
    ++ distinctBlock query ++ genericTips

/-! ## `parse_query_plan` (app.py lines 6-25)

The Python version builds nodes as mutable dicts: a node is appended to its
parent's `children` at creation time and keeps growing afterwards through
the shared reference.  The pure rendition below is the standard equivalent:
a node is attached to the entry below it on the stack when it is popped
(carrying its accumulated children), and at end of input the remaining
stack is collapsed bottom-up; the bottom entry is exactly the node the
Python code last assigned to `root` (a node pushed onto an empty stack
stays at the bottom until popped).  A node popped on an empty stack is
discarded, matching Python where `root` is then reassigned to the new node.
`root` starts as `None`, hence the `Option` result (only reachable for an
empty line list, which `split` never produces). -/

/-- A query-plan tree node: the stripped line text and its children. -/
inductive PlanNode where
  | node (name : List Char) (children : List PlanNode)

/-- One stack entry of `parse_query_plan`: the indentation level and the
node being built. -/
structure StackEntry where
  level : Nat
  name : List Char
  children : List PlanNode

/-- Python `str.strip()` (whitespace from both ends). -/
def pyStrip (l : List Char) : List Char :=
  ((l.dropWhile Char.isWhitespace).reverse.dropWhile Char.isWhitespace).reverse

/-- Python `str.lstrip()`. -/
def pyLstrip (l : List Char) : List Char := l.dropWhile Char.isWhitespace

/-- Finish a stack entry into a node. -/
def finalizeEntry (e : StackEntry) : PlanNode := .node e.name e.children

/-- The `while stack and stack[-1]['level'] >= level: stack.pop()` loop
(lines 15-16): each popped entry becomes a child of the entry below it,
or is discarded when the stack empties. -/
def popAttach (level : Nat) : List StackEntry → List StackEntry
  | [] => []
  | e :: rest =>
    if e.level ≥ level then
      match rest with
      | [] => []
      | p :: ps => popAttach level ({ p with children := p.children ++ [finalizeEntry e] } :: ps)
    else e :: rest
termination_by stack => stack.length
decreasing_by simp

/-- Process one line (lines 11-23): compute the indentation level, pop
deeper-or-equal entries, push the new node. -/
def parseStep (stack : List StackEntry) (line : List Char) : List StackEntry :=
  let level := line.length - (pyLstrip line).length
  let stack1 := popAttach level stack
  { level := level, name := pyStrip line, children := [] } :: stack1

/-- Collapse the final stack bottom-up; the bottom entry is the root. -/
def collapseStack : List StackEntry → Option PlanNode
  | [] => none
  | [e] => some (finalizeEntry e)
  | e :: p :: ps => collapseStack ({ p with children := p.children ++ [finalizeEntry e] } :: ps)
termination_by stack => stack.length
decreasing_by simp

/-- `parse_query_plan` (app.py lines 6-25): split the stripped plan into
lines and fold them through the stack machine. -/
def parse_query_plan (plan : List Char) : Option PlanNode :=
  let lines := (pyStrip plan).splitOn '\n'
  collapseStack (lines.foldl parseStep [])

/-! ## The POST route `index` (app.py lines 192-243)

On POST the route reads `request.form['query_plan']` and
`request.form['query']` by bracket access: in Flask a missing key raises
`BadRequestKeyError` (an HTTP 400 framework error response); there is no
defaulting.  A present field (possibly empty) is returned as is.  The
recommendations are `analyze_query_plan(query_plan)` always, followed by
`analyze_query(query)` only when `query` is truthy (nonempty). -/

/-- The error raised by Flask's `request.form[key]` on a missing key. -/
inductive ReqError where
  | badRequestKeyError (key : String)
deriving DecidableEq

/-- `request.form[key]`: the value when present, `BadRequestKeyError`
otherwise. -/
def formGet (key : String) (v : Option (List Char)) : Except ReqError (List Char) :=
  match v with
  | some s => .ok s
  | none => .error (.badRequestKeyError key)

/-- A submitted form: each field either present (possibly empty) or absent. -/
structure FormData where
  query_plan : Option (List Char)
  query : Option (List Char)

/-- The POST branch of `index` (lines 198-203), parametrised by the module's
plan parser.  The parameter records that `parse_query_plan` is a component
of the module; mirroring the source, the body never uses it. -/
def analysis_output (_planParser : List Char → Option PlanNode)
    (form : FormData) : Except ReqError (List String) := do
  let query_plan ← formGet "query_plan" form.query_plan
  let query ← formGet "query" form.query
  let recs := analyze_query_plan query_plan
  if query.isEmpty then
    return recs
  else
    return recs ++ analyze_query query

/-- The POST behaviour of the deployed module: `analysis_output` with the
module's own `parse_query_plan`. -/
def index_post (form : FormData) : Except ReqError (List String) :=
  analysis_output parse_query_plan form

/-! ## Basic lemmas about the scanning primitives -/

theorem isPref_append_right (a r : List Char) : isPref a (a ++ r) = true := by
  induction a with
  | nil => simp [isPref]
  | cons x xs ih => simp [isPref, ih]

theorem isPref_iff_append {a b : List Char} : isPref a b = true ↔ ∃ r, b = a ++ r := by
  constructor
  · intro h
    induction a generalizing b with
    | nil => exact ⟨b, rfl⟩
    | cons x xs ih =>
      cases b with
      | nil => simp [isPref] at h
      | cons y ys =>
        simp only [isPref, Bool.and_eq_true, beq_iff_eq] at h
        obtain ⟨rfl, h2⟩ := h
        obtain ⟨r, rfl⟩ := ih h2
        exact ⟨r, rfl⟩
  · rintro ⟨r, rfl⟩
    exact isPref_append_right a r

theorem isPref_length_le {a b : List Char} (h : isPref a b = true) :
    a.length ≤ b.length := by
  obtain ⟨r, rfl⟩ := isPref_iff_append.mp h
  simp

theorem isPref_trans {a b c : List Char} (h1 : isPref a b = true)
    (h2 : isPref b c = true) : isPref a c = true := by
  obtain ⟨r, rfl⟩ := isPref_iff_append.mp h1
  obtain ⟨s, rfl⟩ := isPref_iff_append.mp h2
  simpa [List.append_assoc] using isPref_append_right a (r ++ s)

theorem isPref_take (n : Nat) (b : List Char) : isPref (b.take n) b = true := by
  have h := isPref_append_right (b.take n) (b.drop n)
  simpa [List.take_append_drop] using h

theorem isPref_of_isPref_of_length_le {a b c : List Char} (ha : isPref a c = true)
    (hb : isPref b c = true) (hl : a.length ≤ b.length) : isPref a b = true := by
  obtain ⟨r, hr⟩ := isPref_iff_append.mp ha
  obtain ⟨s, hs⟩ := isPref_iff_append.mp hb
  have hab : a = b.take a.length := by
    have h1 : a = c.take a.length := by
      rw [hr, List.take_append_eq_append_take]
      simp
    have h2 : c.take a.length = b.take a.length := by
      rw [hs, List.take_append_eq_append_take]
      have : a.length - b.length = 0 := by omega
      simp [this]
    conv_lhs => rw [h1]
    exact h2
  have hp := isPref_take a.length b
  rw [← hab] at hp
  exact hp

theorem containsSub_cons_of_tail {nd t : List Char} (c : Char)
    (h : containsSub nd t = true) : containsSub nd (c :: t) = true := by
  simp [containsSub, h]

theorem containsSub_of_drop {nd l : List Char} {n : Nat}
    (h : containsSub nd (l.drop n) = true) : containsSub nd l = true := by
  induction n generalizing l with
  | zero => simpa using h
  | succ m ih =>
    cases l with
    | nil => simpa using h
    | cons c t => exact containsSub_cons_of_tail c (ih (by simpa using h))

theorem containsSub_of_isPref {nd hay : List Char} (h : isPref nd hay = true) :
    containsSub nd hay = true := by
  cases hay with
  | nil =>
    cases nd with
    | nil => simp [containsSub]
    | cons x xs => simp [isPref] at h
  | cons c t => simp [containsSub, h]

theorem containsSub_mono {a b hay : List Char} (hab : isPref a b = true)
    (h : containsSub b hay = true) : containsSub a hay = true := by
  induction hay with
  | nil =>
    cases b with
    | nil =>
      cases a with
      | nil => simpa using h
      | cons x xs => simp [isPref] at hab
    | cons y ys => simp [containsSub] at h
  | cons c t ih =>
    simp only [containsSub, Bool.or_eq_true] at h ⊢
    cases h with
    | inl hp => exact Or.inl (isPref_trans hab hp)
    | inr ht => exact Or.inr (ih ht)

/-- A nonempty `findLitWord` result witnesses the literal in the haystack. -/
theorem containsSub_of_findLitWord_ne_nil {lit : List Char} :
    ∀ hay : List Char, findLitWord lit hay ≠ [] → containsSub lit hay = true := by
  intro hay
  induction hay using findLitWord.induct lit with
  | case1 => intro h; simp [findLitWord] at h
  | case2 c t hp _ _ _ => intro _; exact containsSub_of_isPref hp
  | case3 c t hp _ _ _ => intro _; exact containsSub_of_isPref hp
  | case4 c t hp ih =>
    intro h
    rw [findLitWord] at h
    simp only [if_neg hp] at h
    exact containsSub_cons_of_tail c (ih h)

/-- A positive Python `count` witnesses the needle in the haystack. -/
theorem containsSub_of_pyCount_pos {needle : List Char} (hne : ¬needle.isEmpty = true) :
    ∀ hay : List Char, 0 < pyCount needle hay → containsSub needle hay = true := by
  intro hay
  induction hay using pyCount.induct needle with
  | case1 he => exact absurd he hne
  | case2 _ => intro h; rw [pyCount, if_neg hne] at h; simp at h
  | case3 c t he => exact absurd (he : needle.isEmpty = true) hne
  | case4 c t _ hp _ => intro _; exact containsSub_of_isPref hp
  | case5 c t _ hnp ih =>
    intro h
    rw [pyCount, if_neg hne, if_neg hnp] at h
    exact containsSub_cons_of_tail c (ih h)

/-- `pyMax` of the empty match list is `0`. -/
theorem pyMax_nil : pyMax [] = 0 := rfl

/-! ## Occurrence counting versus Python's non-overlapping `count` -/

theorem occCount_nil (nd : List Char) : occCount nd [] = 0 := by
  simp [occCount]

theorem occCount_cons (nd : List Char) (c : Char) (t : List Char) :
    occCount nd (c :: t) = (if isPref nd (c :: t) = true then 1 else 0) + occCount nd t := by
  simp only [occCount, List.length_cons, List.range_succ_eq_map, List.countP_cons,
    List.countP_map, Function.comp_def, List.drop_succ_cons, List.drop_zero]
  exact Nat.add_comm _ _

/-- Two matches of a border-free needle cannot overlap: if the needle matches
at the start of `hay`, it matches nowhere in the next `needle.length - 1`
positions. -/
theorem isPref_drop_eq_false_of_borderFree {nd hay : List Char}
    (hb : borderFree nd = true) (hp : isPref nd hay = true)
    {j : Nat} (hj0 : 0 < j) (hjn : j < nd.length) :
    isPref nd (hay.drop j) = false := by
  by_contra hc
  rw [Bool.not_eq_false] at hc
  obtain ⟨r, rfl⟩ := isPref_iff_append.mp hp
  have hdrop : (nd ++ r).drop j = nd.drop j ++ r := by
    rw [List.drop_append_eq_append_drop]
    have hz : j - nd.length = 0 := by omega
    simp [hz]
  rw [hdrop] at hc
  have h1 : isPref (nd.drop j) (nd.drop j ++ r) = true := isPref_append_right _ _
  have h2 : isPref (nd.drop j) nd = true :=
    isPref_of_isPref_of_length_le h1 hc (by simp [List.length_drop])
  have hall := List.all_eq_true.mp hb j (by simp [List.mem_range]; omega)
  simp only [Bool.or_eq_true, beq_iff_eq, Bool.not_eq_true'] at hall
  cases hall with
  | inl h0 => omega
  | inr hfalse => rw [h2] at hfalse; cases hfalse

/-- Counting occurrences after a match of a border-free needle: the match
contributes one occurrence and the next match can only start after it. -/
theorem occCount_of_isPref {nd hay : List Char} (hb : borderFree nd = true)
    (hne : nd ≠ []) (hp : isPref nd hay = true) :
    occCount nd hay = 1 + occCount nd (hay.drop nd.length) := by
  have hn1 : 1 ≤ nd.length := by
    cases nd with
    | nil => exact absurd rfl hne
    | cons x xs => simp
  have hnle : nd.length ≤ hay.length := isPref_length_le hp
  have hsplit : hay.length = nd.length + (hay.length - nd.length) := by omega
  rw [occCount, hsplit, List.range_add, List.countP_append, List.countP_map]
  have hpart1 : (List.range nd.length).countP (fun i => isPref nd (hay.drop i)) = 1 := by
    obtain ⟨k, hk⟩ : ∃ k, nd.length = k + 1 := ⟨nd.length - 1, by omega⟩
    rw [hk, List.range_succ_eq_map, List.countP_cons, List.countP_map]
    have hz : (List.range k).countP
        ((fun i => isPref nd (hay.drop i)) ∘ Nat.succ) = 0 := by
      rw [List.countP_eq_zero]
      intro i hi
      simp only [Function.comp_def]
      rw [isPref_drop_eq_false_of_borderFree hb hp (by omega)
        (by rw [hk]; simp at hi; omega)]
      simp
    simp [hz, hp]
  have hpart2 : (List.range (hay.length - nd.length)).countP
      ((fun i => isPref nd (hay.drop i)) ∘ (fun x => nd.length + x))
      = occCount nd (hay.drop nd.length) := by
    rw [occCount, List.length_drop]
    apply List.countP_congr
    intro i _
    simp only [Function.comp_def]
    rw [List.drop_drop, Nat.add_comm]
  rw [hpart1, hpart2]

/-- For a border-free needle, Python's non-overlapping `count` equals the
number of occurrences. -/
theorem occCount_eq_pyCount {needle : List Char} (hb : borderFree needle = true)
    (hne : ¬needle.isEmpty = true) :
    ∀ hay : List Char, occCount needle hay = pyCount needle hay := by
  have hne' : needle ≠ [] := by
    cases needle with
    | nil => simp at hne
    | cons x xs => simp
  intro hay
  induction hay using pyCount.induct needle with
  | case1 he => exact absurd he hne
  | case2 _ => rw [pyCount, if_neg hne]; simp [occCount]
  | case3 c t he => exact absurd (he : needle.isEmpty = true) hne
  | case4 c t _ hp ih =>
    rw [pyCount, if_neg hne, if_pos hp, ← ih]
    have hlen : needle.length = (needle.length - 1) + 1 := by
      cases needle with
      | nil => exact absurd rfl hne'
      | cons x xs => simp
    rw [occCount_of_isPref hb hne' hp, hlen, List.drop_succ_cons]
    simp
  | case5 c t _ hnp ih =>
    rw [pyCount, if_neg hne, if_neg hnp, ← ih, occCount_cons, if_neg hnp]
    simp

/-! ## Claim theorems -/

/-- C1, counterexample: for the empty plan text and empty query text the POST
recommendation list is NOT the empty list — the empty plan contains no
`"Parallel"` substring, so `analyze_query_plan` emits the six
no-parallel-operations lines (app.py lines 135-141). -/
theorem c1_counterexample :
    index_post { query_plan := some [], query := some [] } ≠ Except.ok ([] : List String) := by
  simp +decide [index_post, analysis_output, formGet, bind, Except.bind, pure, Except.pure,
    analyze_query_plan, seqScanBlock,
    indexScanBlock, indexOnlyScanBlock, bitmapHeapScanBlock, hashJoinBlock, nestedLoopBlock,
    mergeJoinBlock, sortBlock, aggregateBlock, materializeBlock, parallelBlock, rowsRemovedBlock,
    seqScanTables, bucketCounts, rowsRemovedCounts, findLitWord, findLitNum, pyCount]

/-- C1, amended: for the empty plan text and the empty query text, the POST
recommendation list (analyze_query_plan on the empty plan, analyze_query
skipped) is exactly the six no-parallel-operations lines — nonempty, not the
empty list. -/
theorem c1_empty_plan_empty_query_output :
    index_post { query_plan := some [], query := some [] } =
      Except.ok
        ["No parallel operations detected. Consider:",
         "- Increasing max_parallel_workers_per_gather",
         "- Ensuring tables are large enough to benefit from parallelism",
         "- Reviewing queries to allow for parallelization",
         "- Consider using parallel query execution for large datasets.",
         "- Parallel operations can significantly improve performance for large queries by utilizing multiple CPU cores."] := by
  simp +decide [index_post, analysis_output, formGet, bind, Except.bind, pure, Except.pure,
    analyze_query_plan, seqScanBlock,
    indexScanBlock, indexOnlyScanBlock, bitmapHeapScanBlock, hashJoinBlock, nestedLoopBlock,
    mergeJoinBlock, sortBlock, aggregateBlock, materializeBlock, parallelBlock, rowsRemovedBlock,
    seqScanTables, bucketCounts, rowsRemovedCounts, findLitWord, findLitNum, pyCount]

/-- C2, counterexample: a POST request missing the form field `query_plan` is
NOT processed as if the field were the empty string — bracket access on the
form raises `BadRequestKeyError` (a Flask 400 error response), so the request
does not produce a recommendation list at all. -/
theorem c2_counterexample :
    index_post { query_plan := none, query := some [] } =
      Except.error (ReqError.badRequestKeyError "query_plan") := by
  simp [index_post, analysis_output, formGet, bind, Except.bind]

/-- C2, amended: a POST request produces a recommendation list (is processed
normally) precisely when both form fields `query_plan` and `query` are
present; a missing field raises `BadRequestKeyError` instead of defaulting to
the empty string.  A present-but-empty field is processed normally. -/
theorem c2_missing_field_is_error (qp q : Option (List Char)) :
    (index_post { query_plan := qp, query := q }).isOk = (qp.isSome && q.isSome) := by
  cases qp <;> cases q
  case some.some p s =>
    by_cases h : s = [] <;>
      simp [index_post, analysis_output, formGet, bind, Except.bind, pure, Except.pure,
        Except.isOk, Except.toBool, h]
  all_goals
    simp [index_post, analysis_output, formGet, bind, Except.bind, Except.isOk, Except.toBool]

/-- C9: the analysis output does not depend on `parse_query_plan` in any way.
Replacing the module's plan parser by an arbitrary function — in particular
removing it — leaves the POST recommendation output unchanged, because the
analysis path never invokes the parser (it is dead code). -/
theorem c9_parse_query_plan_is_dead_code
    (p : List Char → Option PlanNode) (form : FormData) :
    analysis_output p form = index_post form := rfl

/-- C10: for every query text, `analyze_query` returns a list that begins
with the header line, ends with the three unconditional generic tips, and
hence has at least four elements. -/
theorem c10_analyze_query_header_and_tips (query : List Char) :
    (analyze_query query).head? = some "### Query Analysis Recommendations" ∧
    (∃ mid, analyze_query query =
      "### Query Analysis Recommendations" :: (mid ++ genericTips)) ∧
    4 ≤ (analyze_query query).length := by
  refine ⟨rfl,
    ⟨selectStarBlock query ++ joinBlock query ++ whereBlock query ++ groupByBlock query
      ++ orderByBlock query ++ limitBlock query ++ distinctBlock query, ?_⟩, ?_⟩
  · simp [analyze_query, List.append_assoc]
  · simp [analyze_query, genericTips]
    omega

/-- C4: for every plan text not containing the substring `"Parallel"`, the
no-parallel-operations warning is in the `analyze_query_plan` output. -/
theorem c4_no_parallel_warning (plan : List Char)
    (h : containsSub "Parallel".data plan = false) :
    "No parallel operations detected. Consider:" ∈ analyze_query_plan plan := by
  have hblock : "No parallel operations detected. Consider:" ∈ parallelBlock plan := by
    simp [parallelBlock, h]
  simp only [analyze_query_plan, List.mem_append]
  tauto

/-- Witness for C4 at the concrete plan text `""`. -/
theorem c4_witness :
    containsSub "Parallel".data [] = false ∧
      "No parallel operations detected. Consider:" ∈ analyze_query_plan [] :=
  ⟨by decide, c4_no_parallel_warning [] (by decide)⟩

/-- C3, counterexample: the plan text `"buckets=150000"` contains the
substring `"buckets=150000"`, but since it does not contain `"Hash Join"`
the hash-join block (app.py line 86) is skipped entirely and no
large-hash-join warning appears in the output. -/
theorem c3_counterexample :
    "Large hash join detected (150000 buckets). Consider:" ∉
      analyze_query_plan "buckets=150000".data := by
  simp +decide [analyze_query_plan, seqScanBlock, indexScanBlock, indexOnlyScanBlock,
    bitmapHeapScanBlock, hashJoinBlock, nestedLoopBlock, mergeJoinBlock, sortBlock,
    aggregateBlock, materializeBlock, parallelBlock, rowsRemovedBlock,
    seqScanTables, bucketCounts, rowsRemovedCounts, findLitWord, findLitNum, pyCount]

/-- C3, amended: for every plan text that contains `"Hash Join"` and whose
regex-extracted bucket counts have maximum exactly 150000 (as is the case for
a plan containing `"buckets=150000"` and no larger count), the
large-hash-join warning mentioning exactly the count 150000 appears in the
`analyze_query_plan` output. -/
theorem c3_large_hash_join_warning (plan : List Char)
    (hhj : containsSub "Hash Join".data plan = true)
    (hmax : pyMax (bucketCounts plan) = 150000) :
    "Large hash join detected (150000 buckets). Consider:" ∈
      analyze_query_plan plan := by
  have hne : (bucketCounts plan).isEmpty = false := by
    cases hbc : bucketCounts plan with
    | nil => rw [hbc] at hmax; simp [pyMax] at hmax
    | cons a l => rfl
  have hblock : "Large hash join detected (150000 buckets). Consider:" ∈
      hashJoinBlock plan := by
    simp only [hashJoinBlock, hhj, if_true, hne, Bool.false_eq_true, if_false, hmax]
    decide
  simp only [analyze_query_plan, List.mem_append]
  tauto

/-- Witness for C3 at the concrete plan text `"Hash Join buckets=150000"`. -/
theorem c3_witness :
    containsSub "Hash Join".data "Hash Join buckets=150000".data = true ∧
    pyMax (bucketCounts "Hash Join buckets=150000".data) = 150000 ∧
    "Large hash join detected (150000 buckets). Consider:" ∈
      analyze_query_plan "Hash Join buckets=150000".data :=
  ⟨by decide,
   by simp +decide [bucketCounts, findLitNum, natOfDigits, pyMax],
   c3_large_hash_join_warning "Hash Join buckets=150000".data (by decide)
     (by simp +decide [bucketCounts, findLitNum, natOfDigits, pyMax])⟩

/-- C5, counterexample: the plan text `"Seq Scan on ordersX"` contains the
substring `"Seq Scan on orders"`, but the regex `Seq Scan on (\w+)` greedily
captures the table name `ordersX`, so no recommendation naming the table
`orders` appears in the output. -/
theorem c5_counterexample :
    "Consider adding an index to table \x27orders\x27 to avoid sequential scans." ∉
      analyze_query_plan "Seq Scan on ordersX".data := by
  simp +decide [analyze_query_plan, seqScanBlock, indexScanBlock, indexOnlyScanBlock,
    bitmapHeapScanBlock, hashJoinBlock, nestedLoopBlock, mergeJoinBlock, sortBlock,
    aggregateBlock, materializeBlock, parallelBlock, rowsRemovedBlock,
    seqScanTables, bucketCounts, rowsRemovedCounts, findLitWord, findLitNum, pyCount]

/-- C5, amended: for every plan text for which the table-name extraction
`re.findall(r"Seq Scan on (\w+)", plan)` captures `"orders"` (for example a
plan containing `"Seq Scan on orders"` followed by a non-word character and
outside any earlier match), the output contains the table-specific index
suggestion naming the table `orders`. -/
theorem c5_seq_scan_orders (plan : List Char)
    (h : "orders".data ∈ seqScanTables plan) :
    "Consider adding an index to table \x27orders\x27 to avoid sequential scans." ∈
      analyze_query_plan plan := by
  have h1 : containsSub "Seq Scan on ".data plan = true :=
    containsSub_of_findLitWord_ne_nil plan (List.ne_nil_of_mem h)
  have hcontains : containsSub "Seq Scan".data plan = true :=
    containsSub_mono (by decide) h1
  have hblock : "Consider adding an index to table \x27orders\x27 to avoid sequential scans."
      ∈ seqScanBlock plan := by
    simp only [seqScanBlock, hcontains, if_true]
    exact List.mem_flatMap.mpr ⟨"orders".data, h, by decide⟩
  simp only [analyze_query_plan, List.mem_append]
  tauto

/-- Witness for C5 at the concrete plan text `"Seq Scan on orders"`. -/
theorem c5_witness :
    "orders".data ∈ seqScanTables "Seq Scan on orders".data ∧
    "Consider adding an index to table \x27orders\x27 to avoid sequential scans." ∈
      analyze_query_plan "Seq Scan on orders".data :=
  ⟨by simp +decide [seqScanTables, findLitWord],
   c5_seq_scan_orders "Seq Scan on orders".data
     (by simp +decide [seqScanTables, findLitWord])⟩

/-- C6: for every plan text with three or more occurrences of
`"Nested Loop"`, the output contains a recommendation stating exactly that
occurrence count.  (`"Nested Loop"` is border-free, so Python's
non-overlapping `plan.count` at app.py line 101 equals the number of
occurrences.) -/
theorem c6_nested_loop_count (plan : List Char)
    (h : 3 ≤ occCount "Nested Loop".data plan) :
    (toString (occCount "Nested Loop".data plan) ++
      " nested loops detected. Consider the following:") ∈ analyze_query_plan plan := by
  have heq : occCount "Nested Loop".data plan = pyCount "Nested Loop".data plan :=
    occCount_eq_pyCount (by decide) (by decide) plan
  have hcount : 2 < pyCount "Nested Loop".data plan := by omega
  have hcontains : containsSub "Nested Loop".data plan = true :=
    containsSub_of_pyCount_pos (by decide) plan (by omega)
  have hblock : (toString (occCount "Nested Loop".data plan) ++
      " nested loops detected. Consider the following:") ∈ nestedLoopBlock plan := by
    rw [heq]
    simp only [nestedLoopBlock, hcontains, if_true]
    rw [if_pos hcount]
    exact List.mem_cons_self _ _
  simp only [analyze_query_plan, List.mem_append]
  tauto

/-- Witness for C6 at the concrete plan text
`"Nested Loop Nested Loop Nested Loop"`. -/
theorem c6_witness :
    3 ≤ occCount "Nested Loop".data "Nested Loop Nested Loop Nested Loop".data ∧
    (toString (occCount "Nested Loop".data "Nested Loop Nested Loop Nested Loop".data) ++
      " nested loops detected. Consider the following:") ∈
      analyze_query_plan "Nested Loop Nested Loop Nested Loop".data :=
  ⟨by decide, c6_nested_loop_count "Nested Loop Nested Loop Nested Loop".data (by decide)⟩

/-- C7: the SELECT-* avoidance recommendation appears in the `analyze_query`
output exactly once when the query text contains `"SELECT *"`, and not at all
otherwise. -/
theorem c7_select_star_once (query : List Char) :
    (analyze_query query).count
      "- Avoid using `SELECT *`. Specify only the columns you need to reduce data transfer and improve performance."
      = (if containsSub "SELECT *".data query = true then 1 else 0) := by
  have hhdr : (["### Query Analysis Recommendations"] : List String).count
      "- Avoid using `SELECT *`. Specify only the columns you need to reduce data transfer and improve performance." = 0 := by
    decide
  have hjoin : (joinBlock query).count
      "- Avoid using `SELECT *`. Specify only the columns you need to reduce data transfer and improve performance." = 0 := by
    rw [joinBlock]
    repeat' split
    all_goals decide
  have hwhere : (whereBlock query).count
      "- Avoid using `SELECT *`. Specify only the columns you need to reduce data transfer and improve performance." = 0 := by
    rw [whereBlock]
    split <;> decide
  have hgroup : (groupByBlock query).count
      "- Avoid using `SELECT *`. Specify only the columns you need to reduce data transfer and improve performance." = 0 := by
    rw [groupByBlock]
    split <;> decide
  have horder : (orderByBlock query).count
      "- Avoid using `SELECT *`. Specify only the columns you need to reduce data transfer and improve performance." = 0 := by
    rw [orderByBlock]
    split <;> decide
  have hlimit : (limitBlock query).count
      "- Avoid using `SELECT *`. Specify only the columns you need to reduce data transfer and improve performance." = 0 := by
    rw [limitBlock]
    split <;> decide
  have hdistinct : (distinctBlock query).count
      "- Avoid using `SELECT *`. Specify only the columns you need to reduce data transfer and improve performance." = 0 := by
    rw [distinctBlock]
    split <;> decide
  have htips : genericTips.count
      "- Avoid using `SELECT *`. Specify only the columns you need to reduce data transfer and improve performance." = 0 := by
    decide
  have hsel : (selectStarBlock query).count
      "- Avoid using `SELECT *`. Specify only the columns you need to reduce data transfer and improve performance."
      = (if containsSub "SELECT *".data query = true then 1 else 0) := by
    by_cases hc : containsSub "SELECT *".data query = true
    · rw [selectStarBlock, if_pos hc, if_pos hc]
      decide
    · rw [selectStarBlock, if_neg hc, if_neg hc]
      decide
  rw [analyze_query]
  simp only [List.count_append, hhdr, hjoin, hwhere, hgroup, horder, hlimit, hdistinct,
    htips, hsel]
  omega

/-- C8: the threshold comparisons of `analyze_query_plan` are strict and
fixed.  The output is the concatenation of the twelve check blocks in source
order, and: the large-hash-join check emits its warning lines iff the plan
contains `"Hash Join"` and the maximum regex-extracted bucket count strictly
exceeds 100000; the rows-removed check emits iff the maximum extracted
`Rows Removed by Filter` count strictly exceeds 10000; the nested-loop check
emits iff the `"Nested Loop"` count strictly exceeds 2.  At or below each
threshold the corresponding block is empty, so its warning is absent. -/
theorem c8_strict_thresholds (plan : List Char) :
    analyze_query_plan plan =
      seqScanBlock plan ++ indexScanBlock plan ++ indexOnlyScanBlock plan
        ++ bitmapHeapScanBlock plan ++ hashJoinBlock plan ++ nestedLoopBlock plan
        ++ mergeJoinBlock plan ++ sortBlock plan ++ aggregateBlock plan
        ++ materializeBlock plan ++ parallelBlock plan ++ rowsRemovedBlock plan
    ∧ (hashJoinBlock plan ≠ [] ↔
        containsSub "Hash Join".data plan = true ∧ 100000 < pyMax (bucketCounts plan))
    ∧ (rowsRemovedBlock plan ≠ [] ↔ 10000 < pyMax (rowsRemovedCounts plan))
    ∧ (nestedLoopBlock plan ≠ [] ↔ 2 < pyCount "Nested Loop".data plan) := by
  refine ⟨rfl, ?_, ?_, ?_⟩
  · rw [hashJoinBlock]
    by_cases h1 : containsSub "Hash Join".data plan = true
    · rw [if_pos h1]
      by_cases h2 : (bucketCounts plan).isEmpty = true
      · have hnil : bucketCounts plan = [] := List.isEmpty_iff.mp h2
        simp [h2, hnil, pyMax]
      · simp only [h2, Bool.false_eq_true, if_false]
        by_cases h3 : 100000 < pyMax (bucketCounts plan)
        · rw [if_pos h3]
          simp [h1, h3]
        · rw [if_neg h3]
          simp [h3]
    · rw [if_neg h1]
      simp [h1]
  · rw [rowsRemovedBlock]
    by_cases h2 : (rowsRemovedCounts plan).isEmpty = true
    · have hnil : rowsRemovedCounts plan = [] := List.isEmpty_iff.mp h2
      simp [h2, hnil, pyMax]
    · simp only [h2, Bool.false_eq_true, if_false]
      by_cases h3 : 10000 < pyMax (rowsRemovedCounts plan)
      · rw [if_pos h3]
        simp [h3]
      · rw [if_neg h3]
        simp [h3]
  · rw [nestedLoopBlock]
    by_cases h1 : containsSub "Nested Loop".data plan = true
    · rw [if_pos h1]
      by_cases h3 : 2 < pyCount "Nested Loop".data plan
      · rw [if_pos h3]
        simp [h3]
      · rw [if_neg h3]
        simp [h3]
    · rw [if_neg h1]
      constructor
      · intro hne
        exact absurd rfl hne
      · intro h3
        exact absurd (containsSub_of_pyCount_pos (by decide) plan (by omega)) h1
